import Mathlib

/-!
Shallow embedding of the lead-scoring backend (FastAPI service) in Lean 4.

Sources embedded here:
  * `app/core/constants.py`      — scoring weights and keyword tables
  * `app/services/scoring_engine.py` — rule score, AI score, total score, batching
  * `app/services/ai_service.py` — response parsing, provider fallback, usage tracker
  * `app/utils/rate_limiter.py`  — per-provider sliding-window rate limiter

Modelling conventions:
  * Python `int` is `Int`; timestamps are modelled in whole seconds as `Nat`
    (`datetime.now()` differences are taken with integral seconds, so
    `timedelta.seconds` is exact on this model).
  * Python string operations are mirrored on `String`
    (`x in y` is substring containment, `.lower()`, `.strip()`, `.split('.')`).
  * Exceptions are modelled with `Option`: a Python call that raises is `none`.
  * The shared mutable class state of `AIUsageTracker` (nested dicts) is
    modelled with an explicit heap of addressed cells, so that the aliasing
    behaviour of `dict.copy()` (a shallow copy) is captured faithfully.
-/

/-! ## String helpers mirroring Python's operators -/

/-- Characters `n` appear verbatim at the head of `h`. -/
def segAt : List Char → List Char → Bool
  | [], _ => true
  | _ :: _, [] => false
  | a :: n, b :: h => a = b && segAt n h

/-- Characters `n` appear verbatim somewhere inside `h`. -/
def segIn (n : List Char) : List Char → Bool
  | [] => n.isEmpty
  | b :: h => segAt n (b :: h) || segIn n h

/-- Python's `needle in hay` on strings: substring containment. -/
def pyIn (needle hay : String) : Bool :=
  segIn needle.data hay.data

/-- Whitespace for Python's `str.strip()`. -/
def isPySpace (c : Char) : Bool :=
  c = ' ' || c = '\t' || c = '\n' || c = '\r' || c = '\x0b' || c = '\x0c'

/-- Python `str.strip()`: drop whitespace from both ends. -/
def pyStrip (s : String) : String :=
  String.mk (((s.data.dropWhile isPySpace).reverse.dropWhile isPySpace).reverse)

/-- Python `str.lower()` (ASCII case mapping, as in every string this
service handles). -/
def pyLower (s : String) : String :=
  String.mk (s.data.map Char.toLower)

/-- Python `str.startswith(needle)`. -/
def pyStartsWith (needle hay : String) : Bool :=
  segAt needle.data hay.data

/-- Python `str.endswith(needle)`. -/
def pyEndsWith (needle hay : String) : Bool :=
  segAt needle.data.reverse hay.data.reverse

/-- Python `str.split('.')` (returns at least one element). -/
def pySplitDotGo : List Char → List Char → List String
  | [], acc => [String.mk acc.reverse]
  | c :: cs, acc =>
      if c = '.' then String.mk acc.reverse :: pySplitDotGo cs []
      else pySplitDotGo cs (c :: acc)

/-- Python `content.split('.')`. -/
def pySplitDot (s : String) : List String :=
  pySplitDotGo s.data []

/-! ## `app/core/constants.py` -/

/-- ScoringConstants.MAX_RULE_SCORE. -/
def MAX_RULE_SCORE : Int := 50

/-- ScoringConstants.DECISION_MAKER_POINTS. -/
def DECISION_MAKER_POINTS : Int := 20

/-- ScoringConstants.INFLUENCER_POINTS. -/
def INFLUENCER_POINTS : Int := 10

/-- ScoringConstants.OTHER_ROLE_POINTS. -/
def OTHER_ROLE_POINTS : Int := 0

/-- ScoringConstants.EXACT_INDUSTRY_POINTS. -/
def EXACT_INDUSTRY_POINTS : Int := 20

/-- ScoringConstants.ADJACENT_INDUSTRY_POINTS. -/
def ADJACENT_INDUSTRY_POINTS : Int := 10

/-- ScoringConstants.OTHER_INDUSTRY_POINTS. -/
def OTHER_INDUSTRY_POINTS : Int := 0

/-- ScoringConstants.COMPLETE_DATA_POINTS. -/
def COMPLETE_DATA_POINTS : Int := 10

/-- ScoringConstants.AI_INTENT_SCORES, as the association list of the dict. -/
def AI_INTENT_SCORES : List (String × Int) :=
  [("high", 50), ("medium", 30), ("low", 10)]

/-- JobRoleCategories.DECISION_MAKERS. -/
def DECISION_MAKERS : List String :=
  ["ceo", "cto", "cfo", "coo", "founder", "co-founder",
   "president", "vp", "vice president", "director",
   "head of", "chief", "owner", "partner"]

/-- JobRoleCategories.INFLUENCERS. -/
def INFLUENCERS : List String :=
  ["manager", "lead", "senior", "principal", "supervisor",
   "coordinator", "team lead", "specialist"]

/-- IndustryMappings.SAAS_RELATED. -/
def SAAS_RELATED : List String :=
  ["software", "saas", "technology", "tech", "it",
   "information technology", "software development"]

/-- IndustryMappings.FINTECH_RELATED. -/
def FINTECH_RELATED : List String :=
  ["fintech", "financial services", "banking", "finance",
   "payments", "cryptocurrency", "blockchain"]

/-- IndustryMappings.ECOMMERCE_RELATED. -/
def ECOMMERCE_RELATED : List String :=
  ["ecommerce", "e-commerce", "retail", "marketplace",
   "online retail", "shopping"]

/-! ## `app/models/lead.py` and `app/models/offer.py` -/

/-- IntentLevel enum (values "High", "Medium", "Low"). -/
inductive IntentLevel where
  | HIGH
  | MEDIUM
  | LOW
deriving DecidableEq, Repr

/-- LeadModel: validated lead fields (all strings). -/
structure LeadModel where
  name : String
  role : String
  company : String
  industry : String
  location : String
  linkedin_bio : String
deriving DecidableEq, Repr

/-- OfferModel: validated offer fields. -/
structure OfferModel where
  name : String
  value_props : List String
  ideal_use_cases : List String
deriving DecidableEq, Repr

/-- LeadScoringResult: the scoring output record. -/
structure LeadScoringResult where
  name : String
  role : String
  company : String
  intent : IntentLevel
  score : Int
  reasoning : String
deriving DecidableEq, Repr

/-! ## `app/services/scoring_engine.py` — rule-based scoring -/

/-- ScoringEngine._score_role: first decision-maker keyword match gives 20,
else first influencer keyword match gives 10, else 0. The `for`/`return`
loops are expressed with `List.any` (the returned value does not depend on
which keyword matches). -/
def score_role (role : String) : Int :=
  let role_lower := pyLower role
  if DECISION_MAKERS.any (fun k => pyIn k role_lower) then
    DECISION_MAKER_POINTS
  else if INFLUENCERS.any (fun k => pyIn k role_lower) then
    INFLUENCER_POINTS
  else
    OTHER_ROLE_POINTS

/-- ScoringEngine._industries_related: both lowercased industry strings
contain some keyword of the same group (substring containment, per group). -/
def industries_related (lead_industry target_industry : String) : Bool :=
  (SAAS_RELATED.any (fun t => pyIn t lead_industry) &&
     SAAS_RELATED.any (fun t => pyIn t target_industry)) ||
  (FINTECH_RELATED.any (fun t => pyIn t lead_industry) &&
     FINTECH_RELATED.any (fun t => pyIn t target_industry)) ||
  (ECOMMERCE_RELATED.any (fun t => pyIn t lead_industry) &&
     ECOMMERCE_RELATED.any (fun t => pyIn t target_industry))

/-- ScoringEngine._score_industry: exact case-insensitive membership in the
target list gives 20, else a related target (per `_industries_related`)
gives 10, else 0. -/
def score_industry (lead_industry : String) (target_industries : List String) : Int :=
  let lead_industry_lower := pyLower lead_industry
  let target_industries_lower := target_industries.map pyLower
  if target_industries_lower.contains lead_industry_lower then
    EXACT_INDUSTRY_POINTS
  else if target_industries_lower.any (fun t => industries_related lead_industry_lower t) then
    ADJACENT_INDUSTRY_POINTS
  else
    OTHER_INDUSTRY_POINTS

/-- ScoringEngine._score_completeness: Python truthiness `field and field.strip()`
for each of the six required fields. -/
def score_completeness (lead : LeadModel) : Int :=
  let required_fields := [lead.name, lead.role, lead.company,
    lead.industry, lead.location, lead.linkedin_bio]
  if required_fields.all (fun f => !(f = "") && !(pyStrip f = "")) then
    COMPLETE_DATA_POINTS
  else
    0

/-- ScoringEngine._calculate_rule_score: sum of the three components,
capped at MAX_RULE_SCORE, plus the breakdown string. -/
def calculate_rule_score (lead : LeadModel) (offer : OfferModel) : Int × String :=
  let role_score := score_role lead.role
  let industry_score := score_industry lead.industry offer.ideal_use_cases
  let completeness_score := score_completeness lead
  let score := role_score + industry_score + completeness_score
  let breakdown :=
    "Role: " ++ toString role_score ++ "pts" ++ " | " ++
    "Industry: " ++ toString industry_score ++ "pts" ++ " | " ++
    "Completeness: " ++ toString completeness_score ++ "pts"
  (min score MAX_RULE_SCORE, breakdown)

/-! ## `app/services/scoring_engine.py` — AI scoring and the single-lead score -/

/-- Outcome of the injected AI service when `score_single_lead` consults it:
the service is absent (`self.ai_service` is `None`), the awaited call
returned an (intent, reasoning) pair, or it raised an exception. -/
inductive AIOutcome where
  | noService
  | ok (intent reasoning : String)
  | exn
deriving DecidableEq, Repr

/-- ScoringEngine._calculate_ai_score: table lookup on the lowercased intent
with default 10, and the two conservative fallback branches. -/
def calculate_ai_score (aiOutcome : AIOutcome) : Int × String × String :=
  match aiOutcome with
  | .noService => (10, "AI service unavailable - conservative scoring applied", "low")
  | .ok intent reasoning =>
      let score := ((AI_INTENT_SCORES.lookup (pyLower intent)).getD 10)
      (score, reasoning, intent)
  | .exn => (10, "AI analysis failed - conservative scoring applied", "low")

/-- Python `IntentLevel(intent.title())`: `title()` only changes case, so the
construction succeeds exactly when the intent is case-insensitively one of
the three enum values, and raises `ValueError` (here `none`) otherwise. -/
def intentLevelOfString (intent : String) : Option IntentLevel :=
  if pyLower intent = "high" then some .HIGH
  else if pyLower intent = "medium" then some .MEDIUM
  else if pyLower intent = "low" then some .LOW
  else none

/-- ScoringEngine.score_single_lead: rule score plus AI score, capped at 100.
`none` models the `ValueError` raised by `IntentLevel(intent.title())` on a
non-canonical intent string (which the real AI service never produces). -/
def score_single_lead (lead : LeadModel) (offer : OfferModel)
    (aiOutcome : AIOutcome) : Option LeadScoringResult :=
  let rule := calculate_rule_score lead offer
  let ai := calculate_ai_score aiOutcome
  let total_score := min (rule.1 + ai.1) 100
  match intentLevelOfString ai.2.2 with
  | none => none
  | some level =>
      some { name := lead.name, role := lead.role, company := lead.company,
             intent := level, score := total_score,
             reasoning := "Rule: " ++ rule.2 ++ ". AI: " ++ ai.2.1 }

/-! ## `app/services/scoring_engine.py` — batched scoring

`score_leads` walks the lead list in chunks of `batch_size = 10`
(`for i in range(0, len(leads), batch_size)`); each chunk is scored with
`asyncio.gather`, which returns its results in the order of the submitted
tasks, so a chunk's result is the in-order map of `score_single_lead` over
the chunk.  The `asyncio.sleep(0.1)` between chunks does not affect the
returned value.  The per-lead AI outcome is supplied as a function of the
lead. -/

/-- One step per chunk: score `leads[i:i+10]`, then continue after `drop 10`. -/
def score_leads_go (f : LeadModel → Option LeadScoringResult) :
    List LeadModel → List (Option LeadScoringResult)
  | [] => []
  | l :: ls => ((l :: ls).take 10).map f ++ score_leads_go f ((l :: ls).drop 10)
termination_by leads => leads.length
decreasing_by
  simp [List.length_drop]
  omega

/-- ScoringEngine.score_leads. -/
def score_leads (leads : List LeadModel) (offer : OfferModel)
    (ai : LeadModel → AIOutcome) : List (Option LeadScoringResult) :=
  score_leads_go (fun lead => score_single_lead lead offer (ai lead)) leads

/-! ## `app/services/ai_service.py` — response parsing

`_parse_ai_response` calls `json.loads` only when the stripped content
starts with `\x7b` and ends with `\x7d`.  `json.loads` is external library
code; it is modelled here by `jsonLoads`, a strict parser for the fragment
the service actually consumes: one top-level JSON object whose keys and
values are escape-free strings.  Inputs outside this fragment are mapped to
`none`.  In Python such inputs either raise in `json.loads` itself or
produce a non-string `data.get('intent')` on which `.lower()` raises; both
routes land in the `except` branch, which is exactly what `none` produces
here (the sole divergence — a string `intent` together with a non-string
`reasoning` value — is exercised by no theorem below). -/

/-- Whitespace skipping inside the JSON text. -/
def skipWs : List Char → List Char
  | [] => []
  | c :: cs => if c = ' ' || c = '\t' || c = '\n' || c = '\r' then skipWs cs else c :: cs

/-- Parse a JSON string literal without escapes; `none` on a backslash or a
control character (strict JSON rejects raw control characters). -/
def parseJStringGo : List Char → List Char → Option (String × List Char)
  | [], _ => none
  | c :: cs, acc =>
      if c = '"' then some (String.mk acc.reverse, cs)
      else if c = '\\' || c.toNat < 32 then none
      else parseJStringGo cs (c :: acc)

/-- Parse a JSON string literal starting at an opening quote. -/
def parseJString : List Char → Option (String × List Char)
  | '"' :: cs => parseJStringGo cs []
  | _ => none

/-- Parse the members of a JSON object (after the opening brace), fuelled by
the remaining length. -/
def parseMembers : Nat → List Char → List (String × String) →
    Option (List (String × String) × List Char)
  | 0, _, _ => none
  | fuel + 1, cs, acc =>
      match parseJString (skipWs cs) with
      | none => none
      | some (k, cs1) =>
          match skipWs cs1 with
          | ':' :: cs2 =>
              match parseJString (skipWs cs2) with
              | none => none
              | some (v, cs3) =>
                  match skipWs cs3 with
                  | ',' :: cs4 => parseMembers fuel cs4 (acc ++ [(k, v)])
                  | c :: cs4 =>
                      if c = '\x7d' then some (acc ++ [(k, v)], cs4) else none
                  | [] => none
          | _ => none

/-- Model of `json.loads` on the fragment used by the service (see above). -/
def jsonLoads (content : String) : Option (List (String × String)) :=
  match skipWs content.data with
  | c :: cs =>
      if c = '\x7b' then
        match skipWs cs with
        | d :: rest =>
            if d = '\x7d' then
              if (skipWs rest).isEmpty then some [] else none
            else
              match parseMembers (cs.length + 1) (skipWs cs) [] with
              | some (obj, rest2) => if (skipWs rest2).isEmpty then some obj else none
              | none => none
        | [] => none
      else none
  | [] => none

/-- Python `dict.get(key, default)` on the parsed object; a duplicated key
keeps its last binding, as `json.loads` does. -/
def jsonGet (obj : List (String × String)) (key : String) : Option String :=
  obj.reverse.lookup key

/-- Validation step of `_parse_ai_response`: any intent outside the three
canonical values becomes "low". -/
def validateIntent (intent : String) : String :=
  if ["high", "medium", "low"].contains intent then intent else "low"

/-- AIService._parse_text_response: scan the lowercased text for "high",
then "medium", default "low"; the reasoning is the first `'.'`-separated
sentence, stripped (`str.split` never returns an empty list; the match on
`[]` mirrors the `if sentences else` guard). -/
def parse_text_response (content : String) : String × String :=
  let content_lower := pyLower content
  let intent :=
    if pyIn "high" content_lower then "high"
    else if pyIn "medium" content_lower then "medium"
    else "low"
  let sentences := pySplitDot content
  let reasoning :=
    match sentences with
    | [] => "AI analysis completed"
    | s :: _ => pyStrip s
  (intent, reasoning)

/-- AIService._parse_ai_response: the JSON route is taken only for
brace-delimited content; a failure on that route returns the fixed pair
("low", "Failed to parse AI analysis") from the `except` branch, without
any text scanning.  Non-brace-delimited content goes to text parsing.  The
intent of either successful branch is validated to the canonical set. -/
def parse_ai_response (content : String) : String × String :=
  if pyStartsWith "\x7b" (pyStrip content) && pyEndsWith "\x7d" (pyStrip content) then
    match jsonLoads content with
    | none => ("low", "Failed to parse AI analysis")
    | some data =>
        let intent := pyLower ((jsonGet data "intent").getD "Low")
        let reasoning := (jsonGet data "reasoning").getD "Analysis completed"
        (validateIntent intent, reasoning)
  else
    let (intent, reasoning) := parse_text_response content
    (validateIntent intent, reasoning)

/-! ## Providers -/

/-- The two providers configured by `AIService._setup_providers`
(Gemini first, OpenAI as fallback). -/
inductive Provider where
  | gemini
  | openai
deriving DecidableEq, Repr

/-! ## `app/services/ai_service.py` — AIUsageTracker

`cls._usage` is a dict holding two nested mutable dicts (one per provider)
and an integer failure counter.  `get_stats` returns `cls._usage.copy()`: a
*shallow* copy — a fresh top-level dict whose per-provider entries are the
very same nested dict objects.  To capture that aliasing the nested dicts
live in an explicit heap of addressed cells, and the top-level dict is a
value holding the two addresses plus the (immutable) integer. -/

/-- Nested dict for the "gemini" key. -/
structure GCell where
  calls : Nat
  tokens : Nat
deriving DecidableEq, Repr

/-- Nested dict for the "openai" key; the estimated cost is modelled as an
exact rational (Python accumulates it in floating point). -/
structure OCell where
  calls : Nat
  tokens : Nat
  estimated_cost : ℚ
deriving DecidableEq, Repr

/-- Heap of nested dict objects, with an allocation counter. -/
structure TrackerMem where
  gheap : Nat → GCell
  oheap : Nat → OCell
  next : Nat

/-- The top-level `_usage` dict (and any shallow copy of it): addresses of
the two nested dicts plus the failure count. -/
structure UsageDict where
  gAddr : Nat
  oAddr : Nat
  failures : Nat
deriving DecidableEq, Repr

/-- Whole tracker class state: the heap plus the current `cls._usage`. -/
structure TrackerState where
  mem : TrackerMem
  usage : UsageDict

/-- Heap update at one address (gemini cells). -/
def updG (f : Nat → GCell) (a : Nat) (g : GCell → GCell) : Nat → GCell :=
  fun x => if x = a then g (f x) else f x

/-- Heap update at one address (openai cells). -/
def updO (f : Nat → OCell) (a : Nat) (g : OCell → OCell) : Nat → OCell :=
  fun x => if x = a then g (f x) else f x

/-- AIUsageTracker.log_usage: mutate the provider's nested dict in place;
for OpenAI also accumulate the estimated cost
(`input * 0.00000015 + output * 0.0000006`). -/
def log_usage (provider : Provider) (input_tokens output_tokens : Nat)
    (s : TrackerState) : TrackerState :=
  match provider with
  | .gemini =>
      { s with mem := { s.mem with
          gheap := updG s.mem.gheap s.usage.gAddr (fun c =>
            { calls := c.calls + 1,
              tokens := c.tokens + input_tokens + output_tokens }) } }
  | .openai =>
      { s with mem := { s.mem with
          oheap := updO s.mem.oheap s.usage.oAddr (fun c =>
            { calls := c.calls + 1,
              tokens := c.tokens + input_tokens + output_tokens,
              estimated_cost := c.estimated_cost +
                ((input_tokens : ℚ) * (15 / 100000000) +
                 (output_tokens : ℚ) * (6 / 10000000)) }) } }

/-- AIUsageTracker.log_failure: rebind the integer under the "failures" key
of the current top-level dict. -/
def log_failure (s : TrackerState) : TrackerState :=
  { s with usage := { s.usage with failures := s.usage.failures + 1 } }

/-- AIUsageTracker.get_stats: `cls._usage.copy()` — a fresh top-level dict
with the same nested-dict addresses and the same failure integer; as a
mathematical value the copy coincides with the current `usage` value. -/
def get_stats (s : TrackerState) : UsageDict :=
  s.usage

/-- AIUsageTracker.reset_stats: rebind `cls._usage` to a brand-new dict with
brand-new zeroed nested dicts (fresh addresses). -/
def reset_stats (s : TrackerState) : TrackerState :=
  { mem :=
      { gheap := updG s.mem.gheap s.mem.next (fun _ => { calls := 0, tokens := 0 }),
        oheap := updO s.mem.oheap (s.mem.next + 1)
          (fun _ => { calls := 0, tokens := 0, estimated_cost := 0 }),
        next := s.mem.next + 2 },
    usage := { gAddr := s.mem.next, oAddr := s.mem.next + 1, failures := 0 } }

/-- Tracker state at process start (the class-body initializer of `_usage`). -/
def initTracker : TrackerState :=
  { mem := { gheap := fun _ => { calls := 0, tokens := 0 },
             oheap := fun _ => { calls := 0, tokens := 0, estimated_cost := 0 },
             next := 2 },
    usage := { gAddr := 0, oAddr := 1, failures := 0 } }

/-- What a holder of a (possibly stale) top-level dict observes when reading
it under the current heap: the contents of both nested dicts plus the
failure count. -/
def statsView (mem : TrackerMem) (d : UsageDict) : GCell × OCell × Nat :=
  (mem.gheap d.gAddr, mem.oheap d.oAddr, d.failures)

/-! ## `app/services/ai_service.py` — provider fallback -/

/-- AIService.analyze_lead_intent.  The providers are iterated in order; an
attempt is either a raised exception somewhere in the rate-limit check or
provider call (`none` — caught and skipped), or the provider's raw reply
(`some content`).  A successful attempt parses the reply and logs usage
with `len(prompt)` and `len(content)`; exhausting all attempts logs one
failure and returns the fixed conservative pair.  `promptLen` stands for
`len(prompt)` of the prompt built for this lead/offer pair. -/
def analyze_lead_intent (promptLen : Nat) :
    List (Provider × Option String) → TrackerState → (String × String) × TrackerState
  | [], s => (("low", "AI services unavailable - conservative scoring applied"), log_failure s)
  | (p, some content) :: _, s =>
      let (intent, reasoning) := parse_ai_response content
      ((intent, reasoning), log_usage p promptLen content.length s)
  | (_, none) :: rest, s => analyze_lead_intent promptLen rest s

/-! ## `app/utils/rate_limiter.py` -/

/-- SmartRateLimiter state: `self.calls = {"gemini": [], "openai": []}`,
with timestamps in whole seconds. -/
structure RateLimiterState where
  gemini : List Nat
  openai : List Nat
deriving DecidableEq, Repr

/-- Read `self.calls[provider]`. -/
def RateLimiterState.getCalls (s : RateLimiterState) : Provider → List Nat
  | .gemini => s.gemini
  | .openai => s.openai

/-- Write `self.calls[provider]`. -/
def RateLimiterState.setCalls (s : RateLimiterState) : Provider → List Nat → RateLimiterState
  | .gemini, l => { s with gemini := l }
  | .openai, l => { s with openai := l }

/-- Per-provider ceilings: `10 if provider == "gemini" else 100`. -/
def max_calls (p : Provider) : Nat :=
  match p with
  | .gemini => 10
  | .openai => 100

/-- SmartRateLimiter.check_rate_limit at instant `now`: prune entries older
than the 60-second window; on a full window compute
`sleep_time = 60 - (now - calls[0]).seconds` and suspend that long; then
append `now` — the *pre-sleep* timestamp — to the list.  Returns the
suspension length together with the new state; the calling task resumes
(and the admission happens) at `now + sleep_time`. -/
def check_rate_limit (p : Provider) (now : Nat) (s : RateLimiterState) :
    Nat × RateLimiterState :=
  let calls := s.getCalls p
  let pruned := calls.filter (fun t => now - t < 60)
  if max_calls p ≤ pruned.length then
    let sleep_time := 60 - (now - pruned.headD 0)
    (sleep_time, s.setCalls p (pruned ++ [now]))
  else
    (0, s.setCalls p (pruned ++ [now]))

/-- Run a sequence of admission requests `(provider, call instant)` through
the limiter, returning each request's actual admission instant
`call instant + sleep_time`. -/
def run_admissions : List (Provider × Nat) → RateLimiterState → List (Provider × Nat)
  | [], _ => []
  | (p, now) :: rest, s =>
      let (w, s') := check_rate_limit p now s
      (p, now + w) :: run_admissions rest s'

/-- A request sequence is a valid sequential schedule when each call instant
is no earlier than the return instant of the previous call (`t` carries the
pending return instant). -/
def schedule_ok : Nat → List (Provider × Nat) → RateLimiterState → Bool
  | _, [], _ => true
  | t, (p, now) :: rest, s =>
      decide (t ≤ now) &&
        (let (w, s') := check_rate_limit p now s
         schedule_ok (now + w) rest s')


/-! ## Concrete fixtures and spec-side definitions used by the verification -/

/-- A concrete complete lead (decision-maker role, matching industry). -/
def lead0 : LeadModel :=
  { name := "Ava Patel", role := "CEO", company := "TechCorp",
    industry := "software", location := "SF", linkedin_bio := "Builds B2B SaaS tools" }

/-- A concrete offer targeting the software industry. -/
def offer0 : OfferModel :=
  { name := "Outreach Automation", value_props := ["more meetings"],
    ideal_use_cases := ["software"] }

/-- Modelled from the spec: "attempt strict JSON parse first; on failure,
scan lowercased text for the substrings high/medium/low ... and use the
first sentence as reasoning", with no brace-delimiter gate before the JSON
attempt.  Stated only for comparison with `parse_ai_response`, which is the
embedding of the source. -/
def spec_parse_response (content : String) : String × String :=
  match jsonLoads content with
  | some data =>
      let intent := pyLower ((jsonGet data "intent").getD "Low")
      (validateIntent intent, (jsonGet data "reasoning").getD "Analysis completed")
  | none =>
      let (intent, reasoning) := parse_text_response content
      (validateIntent intent, reasoning)

/-- Modelled from the spec: "the lead's industry and some target industry
belong to the same predefined related-industry group", read as membership
of both lowercased strings in the same predefined group list.  Stated only
for comparison with `industries_related`, the source's substring test. -/
def spec_same_group (a b : String) : Bool :=
  [SAAS_RELATED, FINTECH_RELATED, ECOMMERCE_RELATED].any (fun g =>
    g.contains (pyLower a) && g.contains (pyLower b))

/-- Admission-request sequence that overfills one trailing window: ten calls
at t = 0 fill the Gemini window, the eleventh at t = 0 is throttled (it is
admitted at t = 60 but recorded with its pre-sleep timestamp 0), and after
those stale records age out, ten further calls at t = 60 are admitted. -/
def badSeq : List (Provider × Nat) :=
  List.replicate 11 (Provider.gemini, 0) ++ List.replicate 10 (Provider.gemini, 60)

/-- Number of actual admissions of provider `p` inside the trailing
60-second window ending at `t` (instants `a` with `t - 60 < a ≤ t`). -/
def admissions_in_window (adms : List (Provider × Nat)) (p : Provider) (t : Nat) : Nat :=
  (adms.filter (fun a => decide (a.1 = p) && decide (t < a.2 + 60) && decide (a.2 ≤ t))).length

/-! ## Helper lemmas -/

theorem calculate_rule_score_fst (lead : LeadModel) (offer : OfferModel) :
    (calculate_rule_score lead offer).1 =
      min (score_role lead.role + score_industry lead.industry offer.ideal_use_cases +
        score_completeness lead) MAX_RULE_SCORE := rfl

theorem score_role_cases (role : String) :
    score_role role = 20 ∨ score_role role = 10 ∨ score_role role = 0 := by
  simp only [score_role]
  split
  · exact Or.inl rfl
  split
  · exact Or.inr (Or.inl rfl)
  · exact Or.inr (Or.inr rfl)

theorem score_industry_cases (lead_industry : String) (targets : List String) :
    score_industry lead_industry targets = 20 ∨
    score_industry lead_industry targets = 10 ∨
    score_industry lead_industry targets = 0 := by
  simp only [score_industry]
  split
  · exact Or.inl rfl
  split
  · exact Or.inr (Or.inl rfl)
  · exact Or.inr (Or.inr rfl)

theorem score_completeness_cases (lead : LeadModel) :
    score_completeness lead = 10 ∨ score_completeness lead = 0 := by
  simp only [score_completeness]
  split
  · exact Or.inl rfl
  · exact Or.inr rfl

theorem calculate_rule_score_bounds (lead : LeadModel) (offer : OfferModel) :
    0 ≤ (calculate_rule_score lead offer).1 ∧ (calculate_rule_score lead offer).1 ≤ 50 := by
  rw [calculate_rule_score_fst]
  constructor
  · refine le_min ?_ (by norm_num [MAX_RULE_SCORE])
    rcases score_role_cases lead.role with h | h | h <;>
      rcases score_industry_cases lead.industry offer.ideal_use_cases with g | g | g <;>
      rcases score_completeness_cases lead with k | k <;>
      rw [h, g, k] <;> norm_num
  · have := min_le_right (score_role lead.role +
      score_industry lead.industry offer.ideal_use_cases + score_completeness lead) MAX_RULE_SCORE
    exact this

theorem ai_lookup_cases (s : String) :
    (AI_INTENT_SCORES.lookup s).getD 10 = 50 ∨
    (AI_INTENT_SCORES.lookup s).getD 10 = 30 ∨
    (AI_INTENT_SCORES.lookup s).getD 10 = 10 := by
  cases e1 : (s == "high") with
  | true => simp [AI_INTENT_SCORES, List.lookup, e1]
  | false =>
      cases e2 : (s == "medium") with
      | true => simp [AI_INTENT_SCORES, List.lookup, e1, e2]
      | false =>
          cases e3 : (s == "low") with
          | true => simp [AI_INTENT_SCORES, List.lookup, e1, e2, e3]
          | false => simp [AI_INTENT_SCORES, List.lookup, e1, e2, e3]

theorem calculate_ai_score_bounds (aiOutcome : AIOutcome) :
    10 ≤ (calculate_ai_score aiOutcome).1 ∧ (calculate_ai_score aiOutcome).1 ≤ 50 := by
  cases aiOutcome with
  | noService => exact ⟨by norm_num [calculate_ai_score], by norm_num [calculate_ai_score]⟩
  | exn => exact ⟨by norm_num [calculate_ai_score], by norm_num [calculate_ai_score]⟩
  | ok intent reasoning =>
      simp only [calculate_ai_score]
      rcases ai_lookup_cases (pyLower intent) with h | h | h <;> rw [h] <;> norm_num

theorem intentLevel_of_canonical (intent : String)
    (h : pyLower intent = "high" ∨ pyLower intent = "medium" ∨ pyLower intent = "low") :
    ∃ lvl, intentLevelOfString intent = some lvl := by
  rcases h with h | h | h <;> simp [intentLevelOfString, h]

/-- Claim C1: for every lead and offer (and canonical classifier intent, as
`analyze_lead_intent` always produces), `score_single_lead` returns a result
whose score equals `min(rule score + AI score, 100)`, with the rule score in
[0, 50], the AI score in [0, 50], and the total in [0, 100]. -/
theorem C1_total_score_formula (lead : LeadModel) (offer : OfferModel) (aiOutcome : AIOutcome)
    (h : pyLower (calculate_ai_score aiOutcome).2.2 = "high" ∨
         pyLower (calculate_ai_score aiOutcome).2.2 = "medium" ∨
         pyLower (calculate_ai_score aiOutcome).2.2 = "low") :
    ∃ r, score_single_lead lead offer aiOutcome = some r ∧
      r.score = min ((calculate_rule_score lead offer).1 + (calculate_ai_score aiOutcome).1) 100 ∧
      0 ≤ (calculate_rule_score lead offer).1 ∧ (calculate_rule_score lead offer).1 ≤ 50 ∧
      0 ≤ (calculate_ai_score aiOutcome).1 ∧ (calculate_ai_score aiOutcome).1 ≤ 50 ∧
      0 ≤ r.score ∧ r.score ≤ 100 := by
  obtain ⟨lvl, hlvl⟩ := intentLevel_of_canonical _ h
  have hrb := calculate_rule_score_bounds lead offer
  have hab := calculate_ai_score_bounds aiOutcome
  simp only [score_single_lead, hlvl]
  refine ⟨_, rfl, rfl, hrb.1, hrb.2, by linarith [hab.1], hab.2, ?_, ?_⟩
  · exact le_min (by linarith [hrb.1, hab.1]) (by norm_num)
  · exact min_le_right _ _

/-- Witness for C1 at a concrete lead, offer and classifier reply. -/
theorem C1_total_score_formula_witness :
    pyLower (calculate_ai_score (AIOutcome.ok "high" "strong signals")).2.2 = "high" ∧
    (∃ r, score_single_lead lead0 offer0 (AIOutcome.ok "high" "strong signals") = some r ∧
      r.score = min ((calculate_rule_score lead0 offer0).1 +
        (calculate_ai_score (AIOutcome.ok "high" "strong signals")).1) 100 ∧
      0 ≤ (calculate_rule_score lead0 offer0).1 ∧ (calculate_rule_score lead0 offer0).1 ≤ 50 ∧
      0 ≤ (calculate_ai_score (AIOutcome.ok "high" "strong signals")).1 ∧
      (calculate_ai_score (AIOutcome.ok "high" "strong signals")).1 ≤ 50 ∧
      0 ≤ r.score ∧ r.score ≤ 100) :=
  ⟨by decide, C1_total_score_formula lead0 offer0 (AIOutcome.ok "high" "strong signals")
    (Or.inl (by decide))⟩

/-- Claim C10: every branch of AI scoring contributes at least 10 points, so
every result returned by `score_single_lead` has score at least 10 (never 0). -/
theorem C10_score_at_least_ten (lead : LeadModel) (offer : OfferModel) (aiOutcome : AIOutcome)
    (r : LeadScoringResult) (h : score_single_lead lead offer aiOutcome = some r) :
    10 ≤ r.score := by
  have hrb := (calculate_rule_score_bounds lead offer).1
  have hab := (calculate_ai_score_bounds aiOutcome).1
  simp only [score_single_lead] at h
  cases hI : intentLevelOfString (calculate_ai_score aiOutcome).2.2 with
  | none => rw [hI] at h; simp at h
  | some lvl =>
      rw [hI] at h
      simp only [Option.some.injEq] at h
      rw [← h]
      exact le_min (by linarith) (by norm_num)

/-- Witness for C10: a lead scored with a failing AI service still gets at
least 10 points. -/
theorem C10_score_at_least_ten_witness :
    (∃ r, score_single_lead lead0 offer0 AIOutcome.exn = some r ∧ 10 ≤ r.score) := by
  have h : score_single_lead lead0 offer0 AIOutcome.exn =
      some { name := "Ava Patel", role := "CEO", company := "TechCorp",
             intent := IntentLevel.LOW, score := 60,
             reasoning := "Rule: Role: 20pts | Industry: 20pts | Completeness: 10pts. AI: AI analysis failed - conservative scoring applied" } := by
    decide
  exact ⟨_, h, C10_score_at_least_ten lead0 offer0 AIOutcome.exn _ h⟩

/-- Unfolding lemma: the chunked traversal of `score_leads` is the in-order
map of the per-lead scorer. -/
theorem score_leads_go_eq_map (f : LeadModel → Option LeadScoringResult) :
    ∀ l : List LeadModel, score_leads_go f l = l.map f := by
  have H : ∀ n (l : List LeadModel), l.length ≤ n → score_leads_go f l = l.map f := by
    intro n
    induction n with
    | zero =>
        intro l hl
        rw [Nat.le_zero, List.length_eq_zero] at hl
        subst hl
        simp [score_leads_go]
    | succ n ih =>
        intro l hl
        cases l with
        | nil => simp [score_leads_go]
        | cons a as =>
            rw [score_leads_go]
            rw [ih ((a :: as).drop 10)
              (by simp only [List.length_drop, List.length_cons]
                  simp only [List.length_cons] at hl
                  omega)]
            rw [← List.map_append, List.take_append_drop]
  exact fun l => H l.length l le_rfl

/-- Claim C4: `score_leads` returns one result per input lead, index-matched
with the input list (chunking into batches of 10 and concurrent completion
inside a batch — `asyncio.gather` returns results in task-submission order —
do not disturb the ordering). -/
theorem C4_order_preserving (leads : List LeadModel) (offer : OfferModel)
    (ai : LeadModel → AIOutcome) :
    score_leads leads offer ai = leads.map (fun l => score_single_lead l offer (ai l)) ∧
    (score_leads leads offer ai).length = leads.length ∧
    ∀ i : Nat, (score_leads leads offer ai)[i]? =
      (leads[i]?).map (fun l => score_single_lead l offer (ai l)) := by
  have h := score_leads_go_eq_map (fun l => score_single_lead l offer (ai l)) leads
  refine ⟨h, ?_, ?_⟩
  · unfold score_leads
    rw [h, List.length_map]
  · intro i
    unfold score_leads
    rw [h, List.getElem?_map]

/-- Claim C2: when every configured provider attempt fails,
`analyze_lead_intent` returns exactly the fixed conservative pair, and the
global failure counter is incremented exactly once for the whole exhausted
call (independent of the number of failed providers); nothing else in the
tracker changes, and the modelled operation is total (never raises). -/
theorem C2_exhausted_fallback (promptLen : Nat) (attempts : List (Provider × Option String))
    (s : TrackerState) (h : ∀ a ∈ attempts, a.2 = none) :
    analyze_lead_intent promptLen attempts s =
      (("low", "AI services unavailable - conservative scoring applied"), log_failure s) ∧
    (log_failure s).usage.failures = s.usage.failures + 1 ∧
    (log_failure s).mem = s.mem ∧
    (log_failure s).usage.gAddr = s.usage.gAddr ∧
    (log_failure s).usage.oAddr = s.usage.oAddr := by
  refine ⟨?_, rfl, rfl, rfl, rfl⟩
  induction attempts generalizing s with
  | nil => rfl
  | cons a rest ih =>
      obtain ⟨p, o⟩ := a
      have ho : o = none := h (p, o) (by simp)
      subst ho
      exact ih s (fun b hb => h b (by simp [hb]))

/-- Witness for C2: two failing providers, one single failure increment. -/
theorem C2_exhausted_fallback_witness :
    analyze_lead_intent 7 [(Provider.gemini, none), (Provider.openai, none)] initTracker =
      (("low", "AI services unavailable - conservative scoring applied"),
        log_failure initTracker) ∧
    (log_failure initTracker).usage.failures = initTracker.usage.failures + 1 := by
  have H := C2_exhausted_fallback 7 [(Provider.gemini, none), (Provider.openai, none)]
    initTracker (by decide)
  exact ⟨H.1, H.2.1⟩

/-- Claim C3 (violation): with the Gemini ceiling of 10, the valid
sequential schedule `badSeq` — ten immediate admissions at t = 0, an
eleventh call at t = 0 that is throttled and admitted at t = 60, then ten
calls at t = 60 — produces eleven actual admissions inside the single
trailing window (0, 60].  The throttled call is recorded with its pre-sleep
timestamp 0, so by t = 60 its record has already been pruned and ten fresh
admissions pass the ceiling check. -/
theorem C3_window_ceiling_violated :
    schedule_ok 0 badSeq { gemini := [], openai := [] } = true ∧
    admissions_in_window (run_admissions badSeq { gemini := [], openai := [] })
      Provider.gemini 60 = 11 ∧
    max_calls Provider.gemini = 10 := by decide

/-- Claim C9 (violation): `get_stats` is a shallow copy.  Reading the
snapshot taken before `log_usage("gemini", 100, 50)` under the heap as it
is after that call shows the mutated nested dict (calls = 1, tokens = 150):
the previously returned value does not stay unchanged, and the snapshot
still aliases the tracker's live nested state (last conjunct). -/
theorem C9_snapshot_not_immutable :
    get_stats initTracker = initTracker.usage ∧
    statsView initTracker.mem (get_stats initTracker) =
      ({ calls := 0, tokens := 0 }, { calls := 0, tokens := 0, estimated_cost := 0 }, 0) ∧
    statsView (log_usage Provider.gemini 100 50 initTracker).mem (get_stats initTracker) =
      ({ calls := 1, tokens := 150 }, { calls := 0, tokens := 0, estimated_cost := 0 }, 0) ∧
    statsView (log_usage Provider.gemini 100 50 initTracker).mem (get_stats initTracker) =
      statsView (log_usage Provider.gemini 100 50 initTracker).mem
        (get_stats (log_usage Provider.gemini 100 50 initTracker)) := by
  refine ⟨rfl, by decide, by decide, rfl⟩

/-- The validation step only lets the three canonical intents through. -/
theorem validateIntent_canonical (s : String) :
    validateIntent s = "high" ∨ validateIntent s = "medium" ∨ validateIntent s = "low" := by
  by_cases h1 : s = "high"
  · subst h1; left; decide
  by_cases h2 : s = "medium"
  · subst h2; right; left; decide
  by_cases h3 : s = "low"
  · subst h3; right; right; decide
  · right; right
    have hc : (["high", "medium", "low"].contains s) = false := by
      cases e1 : (s == "high") with
      | true => exact absurd (eq_of_beq e1) h1
      | false =>
          cases e2 : (s == "medium") with
          | true => exact absurd (eq_of_beq e2) h2
          | false =>
              cases e3 : (s == "low") with
              | true => exact absurd (eq_of_beq e3) h3
              | false => simp [List.contains, List.elem, e1, e2, e3]
    simp only [validateIntent]
    rw [hc]
    simp

/-- Every reply parses to a canonical intent. -/
theorem parse_ai_response_canonical (content : String) :
    (parse_ai_response content).1 = "high" ∨ (parse_ai_response content).1 = "medium" ∨
    (parse_ai_response content).1 = "low" := by
  simp only [parse_ai_response]
  split
  · cases hj : jsonLoads content with
    | none => simp [hj]
    | some data => simp only [hj]; exact validateIntent_canonical _
  · rcases hp : parse_text_response content with ⟨i, r⟩
    simp only [hp]
    exact validateIntent_canonical i

/-- Claim C5 (amended): parsing treats a reply as JSON only when its
stripped text is brace-delimited; a failing JSON parse on that route yields
the fixed pair ("low", "Failed to parse AI analysis") with no text
scanning.  Only non-brace-delimited replies are text-scanned, with the
high/medium/low priority order, the first '.'-separated sentence (stripped)
as reasoning, and coercion of any non-canonical intent to low. -/
theorem C5_parse_amended (content : String) :
    ((pyStartsWith "\x7b" (pyStrip content) && pyEndsWith "\x7d" (pyStrip content)) = false →
      parse_ai_response content =
        (validateIntent (parse_text_response content).1, (parse_text_response content).2)) ∧
    ((pyStartsWith "\x7b" (pyStrip content) && pyEndsWith "\x7d" (pyStrip content)) = true →
      jsonLoads content = none →
      parse_ai_response content = ("low", "Failed to parse AI analysis")) ∧
    ((parse_text_response content).1 =
      (if pyIn "high" (pyLower content) then "high"
       else if pyIn "medium" (pyLower content) then "medium" else "low")) ∧
    ((parse_text_response content).2 =
      pyStrip ((pySplitDot content).headD "AI analysis completed")) ∧
    ((parse_ai_response content).1 = "high" ∨ (parse_ai_response content).1 = "medium" ∨
      (parse_ai_response content).1 = "low") := by
  refine ⟨?_, ?_, rfl, ?_, parse_ai_response_canonical content⟩
  · intro hb
    simp only [parse_ai_response, hb]
    rcases hp : parse_text_response content with ⟨i, r⟩
    simp [hp]
  · intro hb hj
    simp only [parse_ai_response, hb, hj]
    simp
  · simp only [parse_text_response]
    cases hs : pySplitDot content with
    | nil => simp only [hs, List.headD]; decide
    | cons a t => simp [hs]

/-- Witness for C5 (amended), on a non-brace-delimited reply. -/
theorem C5_parse_amended_witness :
    parse_ai_response "great fit. more" = ("low", "great fit") := by
  have H := (C5_parse_amended "great fit. more").1 (by decide)
  rw [H]; decide

/-- Claim C5 (counterexample): the brace-delimited reply `{high}` fails the
strict JSON parse; the code then returns the fixed failure pair without any
text scanning, while the spec's description (JSON first, then text scan of
the lowercased reply) would extract intent "high" with the first sentence
as reasoning. -/
theorem C5_counterexample :
    parse_ai_response "\x7bhigh\x7d" = ("low", "Failed to parse AI analysis") ∧
    jsonLoads "\x7bhigh\x7d" = none ∧
    spec_parse_response "\x7bhigh\x7d" = ("high", "\x7bhigh\x7d") ∧
    parse_ai_response "\x7bhigh\x7d" ≠ spec_parse_response "\x7bhigh\x7d" := by decide

/-- Claim C6: the role score is 20 if the lowercased role contains any
decision-maker keyword (checked first), else 10 if it contains any
influencer keyword, else 0; a role matching both categories scores 20. -/
theorem C6_role_priority (role : String) :
    ((∃ k ∈ DECISION_MAKERS, pyIn k (pyLower role) = true) → score_role role = 20) ∧
    ((¬ ∃ k ∈ DECISION_MAKERS, pyIn k (pyLower role) = true) →
      (∃ k ∈ INFLUENCERS, pyIn k (pyLower role) = true) → score_role role = 10) ∧
    ((¬ ∃ k ∈ DECISION_MAKERS, pyIn k (pyLower role) = true) →
      (¬ ∃ k ∈ INFLUENCERS, pyIn k (pyLower role) = true) → score_role role = 0) := by
  have dm : DECISION_MAKERS.any (fun k => pyIn k (pyLower role)) = true ↔
      ∃ k ∈ DECISION_MAKERS, pyIn k (pyLower role) = true := List.any_eq_true
  have infl : INFLUENCERS.any (fun k => pyIn k (pyLower role)) = true ↔
      ∃ k ∈ INFLUENCERS, pyIn k (pyLower role) = true := List.any_eq_true
  refine ⟨?_, ?_, ?_⟩
  · intro h
    simp only [score_role]
    rw [if_pos (dm.mpr h)]
    rfl
  · intro hnd h
    simp only [score_role]
    rw [if_neg (fun hc => hnd (dm.mp hc)), if_pos (infl.mpr h)]
    rfl
  · intro hnd hni
    simp only [score_role]
    rw [if_neg (fun hc => hnd (dm.mp hc)), if_neg (fun hc => hni (infl.mp hc))]
    rfl

/-- Witness for C6: "Senior Director" matches a decision-maker keyword
("director") and an influencer keyword ("senior"), and scores 20. -/
theorem C6_role_priority_witness :
    score_role "Senior Director" = 20 ∧
    pyIn "senior" (pyLower "Senior Director") = true ∧
    "director" ∈ DECISION_MAKERS ∧ "senior" ∈ INFLUENCERS :=
  ⟨(C6_role_priority "Senior Director").1 ⟨"director", by decide, by decide⟩,
   by decide, by decide, by decide⟩

/-- Claim C7 (amended): the industry score is 20 on an exact
case-insensitive match; else 10 when the lowercased lead industry and some
lowercased target industry each contain (as a substring) a keyword of the
same predefined group; else 0.  The last conjunct restates the source's
relatedness test in the per-group form. -/
theorem C7_industry_substring (lead : String) (targets : List String) :
    (pyLower lead ∈ targets.map pyLower → score_industry lead targets = 20) ∧
    (pyLower lead ∉ targets.map pyLower →
      (∃ t ∈ targets, industries_related (pyLower lead) (pyLower t) = true) →
      score_industry lead targets = 10) ∧
    (pyLower lead ∉ targets.map pyLower →
      (¬ ∃ t ∈ targets, industries_related (pyLower lead) (pyLower t) = true) →
      score_industry lead targets = 0) ∧
    (∀ a b : String, industries_related a b =
      ([SAAS_RELATED, FINTECH_RELATED, ECOMMERCE_RELATED].any (fun g =>
        g.any (fun term => pyIn term a) && g.any (fun term => pyIn term b)))) := by
  have hc : (targets.map pyLower).contains (pyLower lead) = true ↔
      pyLower lead ∈ targets.map pyLower := by simp
  have hr : (targets.map pyLower).any (fun t => industries_related (pyLower lead) t) = true ↔
      ∃ t ∈ targets, industries_related (pyLower lead) (pyLower t) = true := by
    rw [List.any_eq_true]
    constructor
    · rintro ⟨x, hx, hpx⟩
      rw [List.mem_map] at hx
      obtain ⟨t, ht, rfl⟩ := hx
      exact ⟨t, ht, hpx⟩
    · rintro ⟨t, ht, hpt⟩
      exact ⟨pyLower t, List.mem_map_of_mem _ ht, hpt⟩
  refine ⟨?_, ?_, ?_, ?_⟩
  · intro h
    simp only [score_industry]
    rw [if_pos (hc.mpr h)]
    rfl
  · intro hne h
    simp only [score_industry]
    rw [if_neg (fun hx => hne (hc.mp hx)), if_pos (hr.mpr h)]
    rfl
  · intro hne hnr
    simp only [score_industry]
    rw [if_neg (fun hx => hne (hc.mp hx)), if_neg (fun hx => hnr (hr.mp hx))]
    rfl
  · intro a b
    simp only [industries_related, List.any_cons, List.any_nil, Bool.or_false, Bool.or_assoc]

/-- Witness for C7 (amended): "Banking Services" is not an exact match for
target "finance" but shares the fintech group by substring containment. -/
theorem C7_industry_substring_witness :
    score_industry "Banking Services" ["finance"] = 10 ∧
    industries_related "banking services" "finance" = true :=
  ⟨(C7_industry_substring "Banking Services" ["finance"]).2.1 (by decide)
      ⟨"finance", by decide, by decide⟩,
   by decide⟩

/-- Claim C7 (counterexample): "biotechnology" belongs to no predefined
group (it is not a member of any group list), and is not an exact match for
"software", yet the code scores the pair 10 because "biotechnology"
contains the group keyword "tech" as a substring — the claim as stated
requires 0 here. -/
theorem C7_counterexample :
    score_industry "biotechnology" ["software"] = 10 ∧
    pyLower "biotechnology" ≠ pyLower "software" ∧
    spec_same_group "biotechnology" "software" = false := by decide

/-- Claim C8 (amended): `analyze_lead_intent` always returns a canonical
lowercase intent (high, medium or low), whatever the attempts and replies. -/
theorem C8_intent_canonical (promptLen : Nat) (attempts : List (Provider × Option String))
    (s : TrackerState) :
    (analyze_lead_intent promptLen attempts s).1.1 = "high" ∨
    (analyze_lead_intent promptLen attempts s).1.1 = "medium" ∨
    (analyze_lead_intent promptLen attempts s).1.1 = "low" := by
  induction attempts generalizing s with
  | nil => right; right; rfl
  | cons a rest ih =>
      obtain ⟨p, o⟩ := a
      cases o with
      | none => exact ih s
      | some content =>
          have hcan := parse_ai_response_canonical content
          simp only [analyze_lead_intent]
          rcases hp : parse_ai_response content with ⟨i, r⟩
          rw [hp] at hcan
          simpa using hcan

/-- Claim C8 (counterexample): a provider reply "." parses to intent "low"
with an *empty* reasoning string — the first '.'-separated sentence strips
to "", so the reasoning returned by `analyze_lead_intent` is not non-empty. -/
theorem C8_counterexample :
    (analyze_lead_intent 0 [(Provider.gemini, some ".")] initTracker).1 = ("low", "") ∧
    ((analyze_lead_intent 0 [(Provider.gemini, some ".")] initTracker).1.2).length = 0 := by
  decide
